import Mathlib

/-!
Verification of the streak / conversational-state / scheduler core of the
nosugar_bot repository, shallowly embedded in Lean 4.

Conventions of the embedding:
* Python `int` becomes `Int`; calendar dates become day numbers (`Nat`);
  wall-clock instants in the fixed Bishkek timezone become minutes since an
  epoch that falls on a Monday at 00:00 (`Nat`), so that
  `weekday = (t / 1440) % 7` with Monday = 0, matching Python's
  `datetime.weekday()`.
* The SQLAlchemy session is replaced by explicit state passing: the user row
  and the check-in table are carried as values, and each repository method is
  a pure function from the old state to the new one.
* Message sending, logging and keyboard rendering have no observable effect on
  the modelled state; where the order of externally visible actions matters
  (the text handler, the scheduler loop) the functions also return the ordered
  list of emitted actions.
-/

namespace NoSugar

/-! ### services/user_state_service.py -/

/-- The `UserState` enum: `IDLE`, `WAITING_FOR_RECIPE_INGREDIENTS`,
`WAITING_FOR_NOTE_CONTENT`, `WAITING_FOR_SLIP_ANALYSIS`. -/
inductive UserState where
  | idle
  | waitingForRecipeIngredients
  | waitingForNoteContent
  | waitingForSlipAnalysis
deriving DecidableEq, Repr

/-- The `_user_states` dict of `UserStateService`, as an association list
from Telegram user id to state (a Python dict with unique keys). -/
def StateMap := List (Int × UserState)

instance : DecidableEq StateMap := by
  unfold StateMap
  infer_instance

/-- `UserStateService.set_user_state`: `self._user_states[user_id] = state`
(dict assignment: replaces the entry if present, otherwise adds it). -/
def set_user_state (m : StateMap) (user_id : Int) (state : UserState) : StateMap :=
  if (m.filter (fun p => p.1 = user_id)).isEmpty then
    (user_id, state) :: m
  else
    m.map (fun p => if p.1 = user_id then (user_id, state) else p)

/-- `UserStateService.get_user_state`:
`self._user_states.get(user_id, UserState.IDLE)`. -/
def get_user_state (m : StateMap) (user_id : Int) : UserState :=
  match m.find? (fun p => p.1 = user_id) with
  | some p => p.2
  | none => UserState.idle

/-- Python `del self._user_states[user_id]`: fails (KeyError) when the key is
absent, otherwise removes the entry. -/
def del_user_state (m : StateMap) (user_id : Int) : Option StateMap :=
  if (m.filter (fun p => p.1 = user_id)).isEmpty then
    none
  else
    some (m.filter (fun p => p.1 ≠ user_id))

/-- `UserStateService.clear_user_state`: guarded delete,
`if user_id in self._user_states: del self._user_states[user_id]`.
The result is `none` exactly when the raw `del` would raise and the guard did
not prevent it (never, as proved below). -/
def clear_user_state (m : StateMap) (user_id : Int) : Option StateMap :=
  if (m.filter (fun p => p.1 = user_id)).isEmpty then
    some m
  else
    del_user_state m user_id

/-- `UserStateService.is_waiting_for_recipe`. -/
def is_waiting_for_recipe (m : StateMap) (user_id : Int) : Bool :=
  get_user_state m user_id = UserState.waitingForRecipeIngredients

/-- `UserStateService.is_waiting_for_note`. -/
def is_waiting_for_note (m : StateMap) (user_id : Int) : Bool :=
  get_user_state m user_id = UserState.waitingForNoteContent

/-- `UserStateService.is_waiting_for_slip_analysis`. -/
def is_waiting_for_slip_analysis (m : StateMap) (user_id : Int) : Bool :=
  get_user_state m user_id = UserState.waitingForSlipAnalysis

/-! ### database/models.py -/

/-- The `users` row, restricted to the fields the core logic reads and
writes (`id` and the four counters; names, flags and timestamps are
presentation data). -/
structure User where
  id : Int
  current_streak : Int
  longest_streak : Int
  total_days : Int
  total_slip_ups : Int
deriving DecidableEq, Repr

/-- The `checkins` row: owning user (`users.id`), calendar day, outcome. -/
structure CheckIn where
  user_id : Int
  check_date : Nat
  success : Bool
deriving DecidableEq, Repr

/-! ### database/repository.py — CheckInRepository -/

/-- `CheckInRepository.get_today_checkin`: the check-in of `user_id` whose
`check_date` is today, if any. -/
def get_today_checkin (checkins : List CheckIn) (user_id : Int) (today : Nat) :
    Option CheckIn :=
  checkins.find? (fun c => c.user_id = user_id ∧ c.check_date = today)

/-- `CheckInRepository.create_checkin`: insert a new row with today's date. -/
def create_checkin (checkins : List CheckIn) (user_id : Int) (today : Nat)
    (success : Bool) : List CheckIn :=
  checkins ++ [⟨user_id, today, success⟩]

/-- `CheckInRepository.update_streak` applied to the user row: on success the
current streak grows by one and the longest streak is maxed against it; on
failure the current streak resets to 0 and `total_slip_ups` grows; either way
`total_days` grows. -/
def checkin_update_streak (u : User) (success : Bool) : User :=
  let u1 :=
    if success then
      { u with current_streak := u.current_streak + 1,
               longest_streak := max u.longest_streak (u.current_streak + 1) }
    else
      { u with current_streak := 0 }
  { u1 with total_days := u1.total_days + 1,
            total_slip_ups := u1.total_slip_ups + (if success then 0 else 1) }

/-- The `for checkin in checkins: if success: streak += 1 else: break` loop of
`CheckInRepository.get_current_streak`. -/
def current_streak_loop : List CheckIn → Nat → Nat
  | [], streak => streak
  | c :: rest, streak =>
      if c.success then current_streak_loop rest (streak + 1) else streak

/-- `CheckInRepository.get_current_streak`: the check-ins (already ordered by
`check_date` descending by the query) are scanned from the most recent,
counting successes up to the first failure; an empty history gives 0. -/
def get_current_streak (checkins : List CheckIn) : Nat :=
  if checkins.isEmpty then 0
  else current_streak_loop checkins 0

/-! ### database/repository.py — UserRepository -/

/-- `UserRepository.update_streak`: overwrite `current_streak` with the given
value and max `longest_streak` against the given value. -/
def user_update_streak (u : User) (current_streak : Int) (longest_streak : Int) :
    User :=
  { u with current_streak := current_streak,
           longest_streak := max u.longest_streak longest_streak }

/-! ### C1: get_current_streak counts the leading successes -/

lemma current_streak_loop_eq (l : List CheckIn) (acc : Nat) :
    current_streak_loop l acc = acc + (l.takeWhile (fun c => c.success)).length := by
  induction l generalizing acc with
  | nil => simp [current_streak_loop]
  | cons c rest ih =>
      by_cases h : c.success
      · simp [current_streak_loop, h, List.takeWhile_cons, ih]
        omega
      · simp [current_streak_loop, h, List.takeWhile_cons]

/-- C1: on any check-in history ordered most-recent-first,
`get_current_streak` returns the length of the maximal prefix of successful
check-ins (the consecutive successes counted from the most recent entry,
stopping at the first failure), and in particular 0 on the empty history. -/
theorem C1_get_current_streak (checkins : List CheckIn) :
    get_current_streak checkins =
      (checkins.takeWhile (fun c => c.success)).length ∧
    get_current_streak [] = 0 := by
  constructor
  · unfold get_current_streak
    cases checkins with
    | nil => simp
    | cons c rest => simp [current_streak_loop_eq]
  · rfl

/-! ### handlers/checkin.py -/

/-- The database state seen by a check-in: the caller's user row and the
check-in table. -/
structure Db where
  user : User
  checkins : List CheckIn
deriving DecidableEq, Repr

/-- `CheckInHandler.process_success_checkin`: if a check-in already exists
for today, only a message is edited and the state is untouched; otherwise a
success row is inserted and the streak counters are updated. -/
def process_success_checkin (db : Db) (today : Nat) : Db :=
  match get_today_checkin db.checkins db.user.id today with
  | some _ => db
  | none =>
      { user := checkin_update_streak db.user true,
        checkins := create_checkin db.checkins db.user.id today true }

/-- `CheckInHandler.process_fail_checkin`: if a check-in already exists for
today, only a message is edited and the state is untouched; otherwise a
failure row is inserted and the streak counters are updated. -/
def process_fail_checkin (db : Db) (today : Nat) : Db :=
  match get_today_checkin db.checkins db.user.id today with
  | some _ => db
  | none =>
      { user := checkin_update_streak db.user false,
        checkins := create_checkin db.checkins db.user.id today false }

/-! ### C2: a duplicate same-day check-in is rejected, not merged -/

/-- C2: when the user already has a check-in for the current day, both
`process_success_checkin` and `process_fail_checkin` leave the database
unchanged: no new check-in row is created and `current_streak`,
`longest_streak`, `total_days` and `total_slip_ups` keep their values. -/
theorem C2_duplicate_checkin_rejected (db : Db) (today : Nat)
    (h : (get_today_checkin db.checkins db.user.id today).isSome) :
    process_success_checkin db today = db ∧
    process_fail_checkin db today = db := by
  rcases Option.isSome_iff_exists.mp h with ⟨c, hc⟩
  constructor <;> simp [process_success_checkin, process_fail_checkin, hc]

/-- Witness for C2: a concrete user who checked in on day 5 is rejected on a
second check-in that same day. -/
theorem C2_duplicate_checkin_rejected_witness :
    process_success_checkin ⟨⟨1, 3, 4, 10, 2⟩, [⟨1, 5, true⟩]⟩ 5 =
        ⟨⟨1, 3, 4, 10, 2⟩, [⟨1, 5, true⟩]⟩ ∧
    process_fail_checkin ⟨⟨1, 3, 4, 10, 2⟩, [⟨1, 5, true⟩]⟩ 5 =
        ⟨⟨1, 3, 4, 10, 2⟩, [⟨1, 5, true⟩]⟩ :=
  C2_duplicate_checkin_rejected ⟨⟨1, 3, 4, 10, 2⟩, [⟨1, 5, true⟩]⟩ 5 (by decide)

/-! ### C9: the streak invariant under the two update_streak methods -/

/-- The streak invariant: `0 ≤ current_streak ≤ longest_streak`. -/
def StreakInv (u : User) : Prop :=
  0 ≤ u.current_streak ∧ u.current_streak ≤ u.longest_streak

instance (u : User) : Decidable (StreakInv u) := by
  unfold StreakInv
  infer_instance

/-- C9 counterexample: `UserRepository.update_streak` writes the caller's
`current_streak` unconditionally and only maxes `longest_streak`, so calling
it with `current_streak = 5, longest_streak = 3` on a user satisfying the
invariant yields `current_streak = 5 > 3 = longest_streak`: the invariant is
not preserved. -/
theorem C9_user_update_streak_breaks_inv :
    StreakInv ⟨1, 0, 0, 0, 0⟩ ∧
    ¬ StreakInv (user_update_streak ⟨1, 0, 0, 0, 0⟩ 5 3) := by
  constructor
  · decide
  · decide

/-- C9 (amended): `CheckInRepository.update_streak` always preserves the
invariant and never decreases `longest_streak`; `UserRepository.update_streak`
never decreases `longest_streak` whatever arguments it is handed, and
preserves the invariant provided the supplied values themselves satisfy
`0 ≤ current_streak ≤ longest_streak`. -/
theorem C9_update_streak_invariant (u : User) (success : Bool)
    (cur lng : Int) (hu : StreakInv u) :
    (StreakInv (checkin_update_streak u success) ∧
      u.longest_streak ≤ (checkin_update_streak u success).longest_streak) ∧
    (u.longest_streak ≤ (user_update_streak u cur lng).longest_streak ∧
      (0 ≤ cur ∧ cur ≤ lng → StreakInv (user_update_streak u cur lng))) := by
  obtain ⟨h0, h1⟩ := hu
  refine ⟨⟨⟨?_, ?_⟩, ?_⟩, ?_, fun hargs => ⟨?_, ?_⟩⟩ <;>
    cases success <;>
    simp [checkin_update_streak, user_update_streak, StreakInv] at * <;>
    omega

/-- Witness for C9 (amended): both updates applied to a concrete valid user;
the argument proviso is instantiated inside the conclusion. -/
theorem C9_update_streak_invariant_witness :
    StreakInv ⟨1, 2, 4, 6, 1⟩ ∧
    ((StreakInv (checkin_update_streak ⟨1, 2, 4, 6, 1⟩ true) ∧
        (4 : Int) ≤ (checkin_update_streak ⟨1, 2, 4, 6, 1⟩ true).longest_streak) ∧
      ((4 : Int) ≤ (user_update_streak ⟨1, 2, 4, 6, 1⟩ 3 7).longest_streak ∧
        ((0 : Int) ≤ 3 ∧ (3 : Int) ≤ 7 →
          StreakInv (user_update_streak ⟨1, 2, 4, 6, 1⟩ 3 7)))) :=
  ⟨by decide, C9_update_streak_invariant ⟨1, 2, 4, 6, 1⟩ true 3 7 (by decide)⟩

/-! ### C10: defaulting, totality and frame of the state service -/

lemma clear_user_state_eq (m : StateMap) (user_id : Int) :
    clear_user_state m user_id = some (m.filter (fun p => p.1 ≠ user_id)) := by
  unfold clear_user_state del_user_state
  by_cases h : (m.filter (fun p => p.1 = user_id)).isEmpty
  · simp only [if_pos h]
    congr 1
    rw [List.isEmpty_iff, List.filter_eq_nil_iff] at h
    refine (List.filter_eq_self.mpr ?_).symm
    intro p hp
    have := h p hp
    simpa using this
  · simp [if_neg h]

lemma find?_filter_self (m : StateMap) (user_id : Int) :
    (m.filter (fun p => p.1 ≠ user_id)).find? (fun p => p.1 = user_id) = none := by
  induction m with
  | nil => rfl
  | cons p rest ih =>
      by_cases h : p.1 = user_id
      · simp [List.filter_cons, h, ih]
      · simp [List.filter_cons, h, ih]

lemma find?_filter_other (m : StateMap) (user_id other : Int)
    (hother : other ≠ user_id) :
    (m.filter (fun p => p.1 ≠ user_id)).find? (fun p => p.1 = other) =
      m.find? (fun p => p.1 = other) := by
  induction m with
  | nil => rfl
  | cons p rest ih =>
      by_cases h : p.1 = user_id
      · have hpo : ¬ p.1 = other := by
          rw [h]
          exact fun hh => hother hh.symm
        simpa [List.filter_cons, List.find?_cons, h, hpo, Ne.symm hother] using ih
      · by_cases h2 : p.1 = other
        · simp [List.filter_cons, List.find?_cons, h, h2, hother]
        · simpa [List.filter_cons, List.find?_cons, h, h2] using ih

/-- C10: on any state map, a user id with no stored entry reads as `IDLE`;
`clear_user_state` always succeeds, whether or not an entry for the user
exists; after it the user reads as `IDLE`, and every other user's stored
entry is untouched. -/
theorem C10_state_service_frame (m : StateMap) (user_id other : Int)
    (hother : other ≠ user_id) :
    (m.find? (fun p => p.1 = user_id) = none →
      get_user_state m user_id = UserState.idle) ∧
    (clear_user_state m user_id).isSome ∧
    (∀ m', clear_user_state m user_id = some m' →
      get_user_state m' user_id = UserState.idle ∧
      m'.find? (fun p => p.1 = other) = m.find? (fun p => p.1 = other)) := by
  refine ⟨?_, ?_, ?_⟩
  · intro hnone
    unfold get_user_state
    rw [hnone]
  · rw [clear_user_state_eq]
    rfl
  · intro m' hm'
    rw [clear_user_state_eq] at hm'
    injection hm' with hm'
    subst hm'
    constructor
    · unfold get_user_state
      rw [find?_filter_self]
    · exact find?_filter_other m user_id other hother

/-- Witness for C10: a concrete map in which user 1 does have a stored
pending mode (so the clear performs a real delete) and user 2 is the
frame-preserved other user. -/
theorem C10_state_service_frame_witness :
    (2 : Int) ≠ (1 : Int) ∧
    ((([((1 : Int), UserState.waitingForNoteContent),
          ((2 : Int), UserState.waitingForSlipAnalysis)] :
          List (Int × UserState)).find? (fun p => p.1 = (1 : Int)) = none →
        get_user_state
          [((1 : Int), UserState.waitingForNoteContent),
            ((2 : Int), UserState.waitingForSlipAnalysis)] 1 = UserState.idle) ∧
      (clear_user_state
          [((1 : Int), UserState.waitingForNoteContent),
            ((2 : Int), UserState.waitingForSlipAnalysis)] 1).isSome ∧
      (∀ m', clear_user_state
            [((1 : Int), UserState.waitingForNoteContent),
              ((2 : Int), UserState.waitingForSlipAnalysis)] 1 = some m' →
        get_user_state m' 1 = UserState.idle ∧
        m'.find? (fun p => p.1 = (2 : Int)) =
          ([((1 : Int), UserState.waitingForNoteContent),
              ((2 : Int), UserState.waitingForSlipAnalysis)] :
            List (Int × UserState)).find? (fun p => p.1 = (2 : Int)))) :=
  ⟨by decide,
    C10_state_service_frame
      [((1 : Int), UserState.waitingForNoteContent),
        ((2 : Int), UserState.waitingForSlipAnalysis)] 1 2 (by decide)⟩

/-! ### handlers/text.py -/

/-- The externally visible actions of the text handler, in the order the
code performs them. `createRecipe`, `createNote` and `createSlipAnalysis`
stand for the corresponding `create_*_from_text` calls, each of which stores
the row and sends its answer message; `clearState` stands for
`clear_user_state`. -/
inductive BotEvent where
  | sweetCraving
  | motivationReply
  | statsReply
  | helpReply
  | createRecipe
  | createNote
  | createSlipAnalysis
  | unknownTextReply
  | clearState
deriving DecidableEq, Repr

/-- Executing `clear_user_state`; by `clear_user_state_eq` the fallback arm
is never taken. -/
def clear_user_state_run (m : StateMap) (user_id : Int) : StateMap :=
  (clear_user_state m user_id).getD m

/-- Python's `needle in hay` substring test. -/
def containsSub (needle hay : List Char) : Bool :=
  hay.tails.any (fun t => needle.isPrefixOf t)

def kw_sweet_a : List Char := "хочу сладкого".toList
def kw_sweet_b : List Char := "хочу сладкое".toList
def kw_motivation : List Char := "мотивация".toList
def kw_stats_a : List Char := "статистика".toList
def kw_stats_b : List Char := "статистик".toList
def kw_help_a : List Char := "помощь".toList
def kw_help_b : List Char := "help".toList

/-- `TextHandler.check_user_state`: dispatch on the pending mode; in each
waiting branch the `create_*_from_text` response is produced first and the
mode is cleared afterwards; with no pending mode the unrecognized-text reply
is sent and the state map is untouched. Returns the ordered event list and
the resulting state map. -/
def check_user_state (m : StateMap) (user_id : Int) : List BotEvent × StateMap :=
  if is_waiting_for_recipe m user_id then
    ([BotEvent.createRecipe, BotEvent.clearState], clear_user_state_run m user_id)
  else if is_waiting_for_note m user_id then
    ([BotEvent.createNote, BotEvent.clearState], clear_user_state_run m user_id)
  else if is_waiting_for_slip_analysis m user_id then
    ([BotEvent.createSlipAnalysis, BotEvent.clearState], clear_user_state_run m user_id)
  else
    ([BotEvent.unknownTextReply], m)

/-- `TextHandler.handle_text` on the normalized text
(`message.text.lower().strip()` is applied upstream of the keyword tests;
the embedding receives the normalized character list): the keyword chain is
tried in order and only its fallthrough reaches `check_user_state`. -/
def handle_text (text : List Char) (m : StateMap) (user_id : Int) :
    List BotEvent × StateMap :=
  if containsSub kw_sweet_a text || containsSub kw_sweet_b text then
    ([BotEvent.sweetCraving], m)
  else if containsSub kw_motivation text then
    ([BotEvent.motivationReply], m)
  else if containsSub kw_stats_a text || containsSub kw_stats_b text then
    ([BotEvent.statsReply], m)
  else if containsSub kw_help_a text || containsSub kw_help_b text then
    ([BotEvent.helpReply], m)
  else
    check_user_state m user_id

/-! ### C3: order of mode consumption versus response production -/

lemma check_user_state_of_idle (m : StateMap) (user_id : Int)
    (hm : get_user_state m user_id = UserState.idle) :
    check_user_state m user_id = ([BotEvent.unknownTextReply], m) := by
  unfold check_user_state is_waiting_for_recipe is_waiting_for_note
    is_waiting_for_slip_analysis
  rw [hm]
  simp

/-- The response event that consumes a given waiting mode. -/
def response_for : UserState → BotEvent
  | UserState.waitingForRecipeIngredients => BotEvent.createRecipe
  | UserState.waitingForNoteContent => BotEvent.createNote
  | UserState.waitingForSlipAnalysis => BotEvent.createSlipAnalysis
  | UserState.idle => BotEvent.unknownTextReply

/-- C3 counterexample: for a user waiting for recipe ingredients, the emitted
event list is response-then-clear, so the clear does **not** precede the
response: the claim that the mode is cleared before the response is produced
fails on the code. -/
theorem C3_clear_before_response_cex :
    (check_user_state [((1 : Int), UserState.waitingForRecipeIngredients)] 1).1 =
      [BotEvent.createRecipe, BotEvent.clearState] ∧
    ¬ ((check_user_state
          [((1 : Int), UserState.waitingForRecipeIngredients)] 1).1.indexOf
        BotEvent.clearState <
      (check_user_state
          [((1 : Int), UserState.waitingForRecipeIngredients)] 1).1.indexOf
        (response_for UserState.waitingForRecipeIngredients)) := by
  constructor
  · decide
  · decide

/-- C3 (amended): for a user in any waiting mode, free text produces the
mode's response first and clears the mode immediately afterwards, within the
same handling; handling ends with the user idle, so a duplicate delivery of
the same message processed afterwards is answered as unrecognized text and
is not consumed by the pending mode a second time. -/
theorem C3_mode_consumed_once (m : StateMap) (user_id : Int)
    (h : get_user_state m user_id ≠ UserState.idle) :
    (check_user_state m user_id).1 =
      [response_for (get_user_state m user_id), BotEvent.clearState] ∧
    get_user_state (check_user_state m user_id).2 user_id = UserState.idle ∧
    check_user_state (check_user_state m user_id).2 user_id =
      ([BotEvent.unknownTextReply], (check_user_state m user_id).2) := by
  have hidle : ∀ m' : StateMap, get_user_state m' user_id = UserState.idle →
      check_user_state m' user_id = ([BotEvent.unknownTextReply], m') :=
    fun m' hm' => check_user_state_of_idle m' user_id hm'
  have hcleared : get_user_state (clear_user_state_run m user_id) user_id =
      UserState.idle := by
    unfold clear_user_state_run
    rw [clear_user_state_eq]
    unfold get_user_state
    rw [Option.getD_some, find?_filter_self]
  cases hs : get_user_state m user_id with
  | idle => exact absurd hs h
  | waitingForRecipeIngredients =>
      have hmain : check_user_state m user_id =
          ([BotEvent.createRecipe, BotEvent.clearState],
            clear_user_state_run m user_id) := by
        unfold check_user_state is_waiting_for_recipe
        rw [hs]
        simp
      rw [hmain, response_for]
      exact ⟨rfl, hcleared, hidle _ hcleared⟩
  | waitingForNoteContent =>
      have hmain : check_user_state m user_id =
          ([BotEvent.createNote, BotEvent.clearState],
            clear_user_state_run m user_id) := by
        unfold check_user_state is_waiting_for_recipe is_waiting_for_note
        rw [hs]
        simp
      rw [hmain, response_for]
      exact ⟨rfl, hcleared, hidle _ hcleared⟩
  | waitingForSlipAnalysis =>
      have hmain : check_user_state m user_id =
          ([BotEvent.createSlipAnalysis, BotEvent.clearState],
            clear_user_state_run m user_id) := by
        unfold check_user_state is_waiting_for_recipe is_waiting_for_note
          is_waiting_for_slip_analysis
        rw [hs]
        simp
      rw [hmain, response_for]
      exact ⟨rfl, hcleared, hidle _ hcleared⟩

/-- Witness for C3 (amended): user 1 waiting for note content. -/
theorem C3_mode_consumed_once_witness :
    get_user_state [((1 : Int), UserState.waitingForNoteContent)] 1 ≠
      UserState.idle ∧
    ((check_user_state [((1 : Int), UserState.waitingForNoteContent)] 1).1 =
        [response_for
            (get_user_state [((1 : Int), UserState.waitingForNoteContent)] 1),
          BotEvent.clearState] ∧
      get_user_state
          (check_user_state [((1 : Int), UserState.waitingForNoteContent)] 1).2
          1 = UserState.idle ∧
      check_user_state
          (check_user_state [((1 : Int), UserState.waitingForNoteContent)] 1).2
          1 =
        ([BotEvent.unknownTextReply],
          (check_user_state [((1 : Int), UserState.waitingForNoteContent)] 1).2)) :=
  ⟨by decide, C3_mode_consumed_once [((1 : Int), UserState.waitingForNoteContent)] 1
    (by decide)⟩

/-! ### C8: keyword routing before the unrecognized-text fallback -/

/-- C8: for a user with no pending mode, the keyword chain is tried in order
(the sweet-craving phrases give the alternatives reply; the motivation,
statistics and help keywords give their replies), and the unrecognized-text
reply is produced exactly when no keyword matches. -/
theorem C8_keyword_routing (text : List Char) (m : StateMap) (user_id : Int)
    (hidle : get_user_state m user_id = UserState.idle) :
    ((containsSub kw_sweet_a text || containsSub kw_sweet_b text) = true →
      (handle_text text m user_id).1 = [BotEvent.sweetCraving]) ∧
    ((containsSub kw_sweet_a text || containsSub kw_sweet_b text) = false →
      containsSub kw_motivation text = true →
      (handle_text text m user_id).1 = [BotEvent.motivationReply]) ∧
    ((containsSub kw_sweet_a text || containsSub kw_sweet_b text) = false →
      containsSub kw_motivation text = false →
      (containsSub kw_stats_a text || containsSub kw_stats_b text) = true →
      (handle_text text m user_id).1 = [BotEvent.statsReply]) ∧
    ((containsSub kw_sweet_a text || containsSub kw_sweet_b text) = false →
      containsSub kw_motivation text = false →
      (containsSub kw_stats_a text || containsSub kw_stats_b text) = false →
      (containsSub kw_help_a text || containsSub kw_help_b text) = true →
      (handle_text text m user_id).1 = [BotEvent.helpReply]) ∧
    ((handle_text text m user_id).1 = [BotEvent.unknownTextReply] ↔
      ((containsSub kw_sweet_a text || containsSub kw_sweet_b text) = false ∧
        containsSub kw_motivation text = false ∧
        (containsSub kw_stats_a text || containsSub kw_stats_b text) = false ∧
        (containsSub kw_help_a text || containsSub kw_help_b text) = false)) := by
  have hcs := check_user_state_of_idle m user_id hidle
  refine ⟨?_, ?_, ?_, ?_, ?_⟩
  · intro h1
    simp [handle_text, h1]
  · intro h1 h2
    simp [handle_text, h1, h2]
  · intro h1 h2 h3
    simp [handle_text, h1, h2, h3]
  · intro h1 h2 h3 h4
    simp [handle_text, h1, h2, h3, h4]
  · cases h1 : (containsSub kw_sweet_a text || containsSub kw_sweet_b text) with
    | true => simp [handle_text, h1]
    | false =>
        cases h2 : containsSub kw_motivation text with
        | true => simp [handle_text, h1, h2]
        | false =>
            cases h3 : (containsSub kw_stats_a text || containsSub kw_stats_b text) with
            | true => simp [handle_text, h1, h2, h3]
            | false =>
                cases h4 : (containsSub kw_help_a text || containsSub kw_help_b text) with
                | true => simp [handle_text, h1, h2, h3, h4]
                | false => simp [handle_text, h1, h2, h3, h4, hcs]

/-- Witness for C8: the idle user 7 sending the text "привет", which matches
no keyword and so gets the unrecognized-text reply. -/
theorem C8_keyword_routing_witness :
    get_user_state [] 7 = UserState.idle ∧
    (((containsSub kw_sweet_a "привет".toList ||
          containsSub kw_sweet_b "привет".toList) = true →
        (handle_text "привет".toList [] 7).1 = [BotEvent.sweetCraving]) ∧
      ((containsSub kw_sweet_a "привет".toList ||
          containsSub kw_sweet_b "привет".toList) = false →
        containsSub kw_motivation "привет".toList = true →
        (handle_text "привет".toList [] 7).1 = [BotEvent.motivationReply]) ∧
      ((containsSub kw_sweet_a "привет".toList ||
          containsSub kw_sweet_b "привет".toList) = false →
        containsSub kw_motivation "привет".toList = false →
        (containsSub kw_stats_a "привет".toList ||
          containsSub kw_stats_b "привет".toList) = true →
        (handle_text "привет".toList [] 7).1 = [BotEvent.statsReply]) ∧
      ((containsSub kw_sweet_a "привет".toList ||
          containsSub kw_sweet_b "привет".toList) = false →
        containsSub kw_motivation "привет".toList = false →
        (containsSub kw_stats_a "привет".toList ||
          containsSub kw_stats_b "привет".toList) = false →
        (containsSub kw_help_a "привет".toList ||
          containsSub kw_help_b "привет".toList) = true →
        (handle_text "привет".toList [] 7).1 = [BotEvent.helpReply]) ∧
      ((handle_text "привет".toList [] 7).1 = [BotEvent.unknownTextReply] ↔
        ((containsSub kw_sweet_a "привет".toList ||
            containsSub kw_sweet_b "привет".toList) = false ∧
          containsSub kw_motivation "привет".toList = false ∧
          (containsSub kw_stats_a "привет".toList ||
            containsSub kw_stats_b "привет".toList) = false ∧
          (containsSub kw_help_a "привет".toList ||
            containsSub kw_help_b "привет".toList) = false))) :=
  ⟨by decide, C8_keyword_routing "привет".toList [] 7 (by decide)⟩

/-! ### services/scheduler_service.py

Instants in the fixed Bishkek timezone are minutes since an epoch falling on
a Monday at 00:00, so `weekday = (t / 1440) % 7` with Monday = 0, matching
`datetime.weekday()`, `hour = t % 1440 / 60` and `minute = t % 60`. -/

/-- `self.reminder_time = time(19, 0)`, as a minute of the day. -/
def reminder_minute : Nat := 19 * 60

/-- `self.challenge_time = time(7, 0)`, as a minute of the day. -/
def challenge_minute : Nat := 7 * 60

/-- The `next_reminder` computation of `_wait_until_next_task`: today at
19:00, pushed to tomorrow when the current time has already reached 19:00. -/
def next_reminder (now : Nat) : Nat :=
  if now % 1440 ≥ reminder_minute then
    (now / 1440 + 1) * 1440 + reminder_minute
  else
    (now / 1440) * 1440 + reminder_minute

/-- `days_until_monday = (7 - now.weekday()) % 7`, bumped to 7 when it is
already Monday at or past 7:00. -/
def days_until_monday (now : Nat) : Nat :=
  if (7 - (now / 1440) % 7) % 7 = 0 ∧ now % 1440 ≥ challenge_minute then 7
  else (7 - (now / 1440) % 7) % 7

/-- The `next_challenge` computation of `_wait_until_next_task`. -/
def next_challenge (now : Nat) : Nat :=
  (now / 1440 + days_until_monday now) * 1440 + challenge_minute

/-- The two kinds of scheduled task. -/
inductive TaskType where
  | reminder
  | challenge
deriving DecidableEq, Repr

/-- `_wait_until_next_task`: pick the earlier of the two next instants (the
reminder on a tie, per `if next_reminder < next_challenge`) and sleep until
it; returns the wake-up instant and the chosen task type. -/
def wait_until_next_task (now : Nat) : Nat × TaskType :=
  if next_reminder now < next_challenge now then
    (next_reminder now, TaskType.reminder)
  else
    (next_challenge now, TaskType.challenge)

/-- `_process_scheduled_tasks` at wake-up instant `t`: fires the daily
reminders iff the hour:minute is 19:00, and the weekly challenges iff it is
Monday and the hour:minute is 7:00. -/
def process_scheduled_tasks (t : Nat) : Bool × Bool :=
  (decide (t % 1440 / 60 = reminder_minute / 60 ∧ t % 60 = reminder_minute % 60),
   decide ((t / 1440) % 7 = 0 ∧ t % 1440 / 60 = challenge_minute / 60 ∧
     t % 60 = challenge_minute % 60))

/-! ### C4: the scheduler fires the earlier trigger, and fires it correctly -/

lemma next_reminder_mod (now : Nat) : next_reminder now % 1440 = reminder_minute := by
  unfold next_reminder reminder_minute
  split <;> omega

lemma next_reminder_gt (now : Nat) : now < next_reminder now := by
  unfold next_reminder reminder_minute
  split <;> omega

lemma next_reminder_least (now t : Nat) (ht : now < t)
    (hmod : t % 1440 = reminder_minute) : next_reminder now ≤ t := by
  unfold next_reminder reminder_minute at *
  split <;> omega

lemma next_challenge_mod (now : Nat) : next_challenge now % 10080 = challenge_minute := by
  unfold next_challenge days_until_monday challenge_minute
  split <;> omega

lemma next_challenge_gt (now : Nat) : now < next_challenge now := by
  unfold next_challenge days_until_monday challenge_minute
  split <;> omega

lemma next_challenge_least (now t : Nat) (ht : now < t)
    (hmod : t % 10080 = challenge_minute) : next_challenge now ≤ t := by
  unfold next_challenge days_until_monday challenge_minute at *
  split <;> omega

lemma fires_at_reminder (t : Nat) (h : t % 1440 = reminder_minute) :
    process_scheduled_tasks t = (true, false) := by
  simp only [process_scheduled_tasks, reminder_minute, challenge_minute,
    Prod.mk.injEq, decide_eq_true_eq, decide_eq_false_iff_not]
  unfold reminder_minute at h
  omega

lemma fires_at_challenge (t : Nat) (h : t % 10080 = challenge_minute) :
    process_scheduled_tasks t = (false, true) := by
  simp only [process_scheduled_tasks, reminder_minute, challenge_minute,
    Prod.mk.injEq, decide_eq_true_eq, decide_eq_false_iff_not]
  unfold challenge_minute at h
  omega

/-- C4: `next_reminder` is exactly the least instant strictly after `now`
whose time of day is 19:00 (today's 19:00 when `now` is before it, else
tomorrow's); `next_challenge` is exactly the least instant strictly after
`now` that is a Monday 7:00 (one week later when it is already Monday at or
past 7:00); the scheduler sleeps until the earlier of the two; and waking at
the chosen instant fires precisely the action of the chosen trigger and not
the other one. -/
theorem C4_scheduler_next_task (now : Nat) :
    (next_reminder now % 1440 = reminder_minute ∧ now < next_reminder now ∧
      (∀ t, now < t → t % 1440 = reminder_minute → next_reminder now ≤ t)) ∧
    (next_challenge now % 10080 = challenge_minute ∧ now < next_challenge now ∧
      (∀ t, now < t → t % 10080 = challenge_minute → next_challenge now ≤ t)) ∧
    (wait_until_next_task now).1 = min (next_reminder now) (next_challenge now) ∧
    (∀ ty, (wait_until_next_task now).2 = ty →
      process_scheduled_tasks (wait_until_next_task now).1 =
        (match ty with
         | TaskType.reminder => (true, false)
         | TaskType.challenge => (false, true))) := by
  refine ⟨⟨next_reminder_mod now, next_reminder_gt now, next_reminder_least now⟩,
    ⟨next_challenge_mod now, next_challenge_gt now, next_challenge_least now⟩,
    ?_, ?_⟩
  · unfold wait_until_next_task
    split <;> simp <;> omega
  · intro ty hty
    unfold wait_until_next_task at hty ⊢
    by_cases h : next_reminder now < next_challenge now
    · rw [if_pos h] at hty ⊢
      cases ty with
      | reminder => exact fires_at_reminder _ (next_reminder_mod now)
      | challenge => simp at hty
    · rw [if_neg h] at hty ⊢
      cases ty with
      | reminder => simp at hty
      | challenge => exact fires_at_challenge _ (next_challenge_mod now)

/-! ### C5: the scheduler loop survives exceptions -/

/-- The outcome the environment hands one iteration of the scheduler loop:
the body (`_wait_until_next_task` then `_process_scheduled_tasks`) either
completes having fired a task of the given type, or raises an exception. -/
inductive IterOutcome where
  | ok (fired : TaskType)
  | err
deriving DecidableEq, Repr

/-- The externally visible actions of the scheduler loop. -/
inductive SchedAction where
  | fire (t : TaskType)
  | logError
  | backoff60
deriving DecidableEq, Repr

/-- One un-protected execution of the loop body: an `err` outcome is a
raised exception that would propagate. -/
def iter_body : IterOutcome → Except Unit (List SchedAction)
  | IterOutcome.ok t => Except.ok [SchedAction.fire t]
  | IterOutcome.err => Except.error ()

/-- The `try/except Exception` around the body in `start_scheduler`: a
caught exception is logged and followed by `asyncio.sleep(60)`. -/
def try_iter (o : IterOutcome) : List SchedAction :=
  match iter_body o with
  | Except.ok acts => acts
  | Except.error _ => [SchedAction.logError, SchedAction.backoff60]

/-- The `while self.is_running` loop of `start_scheduler`, run over a finite
trace of iteration outcomes (no `stop_scheduler` call flips `is_running`, so
the loop consumes the whole trace). -/
def scheduler_loop : List IterOutcome → List SchedAction
  | [] => []
  | o :: rest => try_iter o ++ scheduler_loop rest

/-- `start_scheduler`: returns immediately when already running, otherwise
sets `is_running` and enters the loop. -/
def start_scheduler (already_running : Bool) (outcomes : List IterOutcome) :
    List SchedAction :=
  if already_running then [] else scheduler_loop outcomes

/-- C5: an exception in one iteration never terminates the scheduler loop:
the raw body does raise on an `err` outcome, the `try/except` turns it into
a log entry followed by the 60-second backoff, and `start_scheduler` still
processes every remaining iteration of the trace after the failing one. -/
theorem C5_scheduler_survives_exception (pre post : List IterOutcome) :
    iter_body IterOutcome.err = Except.error () ∧
    try_iter IterOutcome.err = [SchedAction.logError, SchedAction.backoff60] ∧
    start_scheduler false (pre ++ IterOutcome.err :: post) =
      start_scheduler false pre ++
        SchedAction.logError :: SchedAction.backoff60 ::
          start_scheduler false post := by
  refine ⟨rfl, rfl, ?_⟩
  unfold start_scheduler
  simp only [if_neg Bool.false_ne_true]
  induction pre with
  | nil => rfl
  | cons o rest ih =>
      simp only [List.cons_append, scheduler_loop, List.append_eq, ih,
        List.append_assoc]

/-! ### C6: fan-out of scheduled notifications -/

/-- The `for user in users` loop of `_send_daily_reminders`: a reminder goes
to a user iff that user has no check-in today; returns the reminded user ids
in order. -/
def send_daily_reminders (users : List User) (checkins : List CheckIn)
    (today : Nat) : List Int :=
  match users with
  | [] => []
  | u :: rest =>
      if (get_today_checkin checkins u.id today).isSome then
        send_daily_reminders rest checkins today
      else
        u.id :: send_daily_reminders rest checkins today

/-- The `for user in users` loop of `_create_weekly_challenges`: every user
gets a challenge row and a notification; returns (ids of users whose
challenge was created, ids of notified users) in order. -/
def create_weekly_challenges (users : List User) : List Int × List Int :=
  match users with
  | [] => ([], [])
  | u :: rest =>
      ((create_weekly_challenges rest).1.cons u.id,
        (create_weekly_challenges rest).2.cons u.id)

/-- C6 counterexample: with a single stored user who has already checked in
today, the daily firing sends no reminder at all, so not every known user is
sent the daily reminder. -/
theorem C6_daily_reminder_not_to_all_cex :
    send_daily_reminders [⟨1, 0, 0, 0, 0⟩] [⟨1, 5, true⟩] 5 = [] ∧
    ¬ ((1 : Int) ∈ send_daily_reminders [⟨1, 0, 0, 0, 0⟩] [⟨1, 5, true⟩] 5) ∧
    (⟨1, 0, 0, 0, 0⟩ : User) ∈ [(⟨1, 0, 0, 0, 0⟩ : User)] := by
  refine ⟨rfl, ?_, ?_⟩
  · decide
  · decide

/-- C6 (amended): a daily firing sends the reminder exactly to the stored
users without a check-in for the current day, while a weekly firing creates
a challenge for, and sends the challenge notification to, every stored
user. -/
theorem C6_fanout (users : List User) (checkins : List CheckIn) (today : Nat) :
    (∀ uid : Int, uid ∈ send_daily_reminders users checkins today ↔
      ∃ u ∈ users, u.id = uid ∧ get_today_checkin checkins u.id today = none) ∧
    (∀ u ∈ users, u.id ∈ (create_weekly_challenges users).1 ∧
      u.id ∈ (create_weekly_challenges users).2) := by
  constructor
  · intro uid
    induction users with
    | nil => simp [send_daily_reminders]
    | cons u rest ih =>
        by_cases h : (get_today_checkin checkins u.id today).isSome
        · simp only [send_daily_reminders, if_pos h, ih, List.mem_cons]
          constructor
          · rintro ⟨v, hv, rfl, hvnone⟩
            exact ⟨v, Or.inr hv, rfl, hvnone⟩
          · rintro ⟨v, hv | hv, rfl, hvnone⟩
            · rw [hv] at hvnone
              rw [hvnone] at h
              simp at h
            · exact ⟨v, hv, rfl, hvnone⟩
        · simp only [send_daily_reminders, if_neg h, List.mem_cons, ih]
          rw [Option.not_isSome_iff_eq_none] at h
          constructor
          · rintro (rfl | ⟨v, hv, rfl, hvnone⟩)
            · exact ⟨u, Or.inl rfl, rfl, h⟩
            · exact ⟨v, Or.inr hv, rfl, hvnone⟩
          · rintro ⟨v, hv | hv, rfl, hvnone⟩
            · rw [hv]
              exact Or.inl rfl
            · exact Or.inr ⟨v, hv, rfl, hvnone⟩
  · intro u hu
    induction users with
    | nil => simp at hu
    | cons v rest ih =>
        rcases List.mem_cons.mp hu with rfl | hu'
        · simp [create_weekly_challenges]
        · rcases ih hu' with ⟨h1, h2⟩
          exact ⟨List.mem_cons_of_mem _ h1, List.mem_cons_of_mem _ h2⟩

/-! ### C7: the incremental counters refine the history aggregates -/

/-- A user row as `create_user` stores it: all four counters at their
column defaults of 0. -/
def fresh_user (id : Int) : User :=
  ⟨id, 0, 0, 0, 0⟩

/-- A sequence of daily check-in outcomes applied in order through
`CheckInRepository.update_streak`. -/
def apply_checkins : List Bool → User → User
  | [], u => u
  | s :: rest, u => apply_checkins rest (checkin_update_streak u s)

/-- Spec-side: the length of the leading run of successes. -/
def spec_run_len (l : List Bool) : Nat :=
  (l.takeWhile (fun s => s)).length

/-- Spec-side, from the spec's words "longest streak = maximum such run
anywhere in history": every run of consecutive successes starts at some
tail of the history, so the maximum run is the maximum over all tails of
the leading success run. -/
def spec_max_run (l : List Bool) : Nat :=
  (l.tails.map spec_run_len).foldr max 0

/-- Spec-side, from the spec's words "total_slip_ups = count of failures". -/
def spec_count_fails (l : List Bool) : Nat :=
  (l.filter (fun s => s = false)).length

/-- The largest current-streak value reached while folding the remaining
outcomes starting from a current run of `c`. -/
def best_from (c : Int) : List Bool → Int
  | [] => c
  | true :: rest => best_from (c + 1) rest
  | false :: rest => max c (best_from 0 rest)

lemma le_best_from (l : List Bool) (c : Int) : c ≤ best_from c l := by
  induction l generalizing c with
  | nil => simp [best_from]
  | cons s rest ih =>
      cases s with
      | true =>
          have := ih (c + 1)
          simp only [best_from]
          omega
      | false =>
          simp only [best_from]
          exact le_max_left _ _

lemma spec_max_run_cons (s : Bool) (l : List Bool) :
    spec_max_run (s :: l) = max (spec_run_len (s :: l)) (spec_max_run l) := by
  simp [spec_max_run, List.tails]

lemma spec_run_len_le_max_run (l : List Bool) : spec_run_len l ≤ spec_max_run l := by
  cases l with
  | nil => simp [spec_run_len, spec_max_run]
  | cons s rest =>
      rw [spec_max_run_cons]
      exact le_max_left _ _

lemma best_from_eq_max_run (l : List Bool) (c : Int) (hc : 0 ≤ c) :
    best_from c l = max (c + (spec_run_len l : Int)) (spec_max_run l : Int) := by
  induction l generalizing c with
  | nil => simp [best_from, spec_run_len, spec_max_run, hc]
  | cons s rest ih =>
      cases s with
      | true =>
          rw [best_from, ih (c + 1) (by omega), spec_max_run_cons]
          have hrl : spec_run_len (true :: rest) = spec_run_len rest + 1 := by
            simp [spec_run_len, List.takeWhile_cons]
          rw [hrl]
          push_cast
          omega
      | false =>
          rw [best_from, ih 0 le_rfl, spec_max_run_cons]
          have hrl : spec_run_len (false :: rest) = 0 := by
            simp [spec_run_len, List.takeWhile_cons]
          rw [hrl]
          have hle := spec_run_len_le_max_run rest
          push_cast
          omega

lemma apply_checkins_total_days (l : List Bool) (u : User) :
    (apply_checkins l u).total_days = u.total_days + l.length := by
  induction l generalizing u with
  | nil => simp [apply_checkins]
  | cons s rest ih =>
      rw [apply_checkins, ih]
      cases s <;> (simp [checkin_update_streak]; omega)

lemma apply_checkins_slip_ups (l : List Bool) (u : User) :
    (apply_checkins l u).total_slip_ups = u.total_slip_ups + spec_count_fails l := by
  induction l generalizing u with
  | nil => simp [apply_checkins, spec_count_fails]
  | cons s rest ih =>
      rw [apply_checkins, ih]
      cases s <;>
        (simp [checkin_update_streak, spec_count_fails, List.filter_cons]
         try omega)

lemma apply_checkins_longest (l : List Bool) (u : User) (hu : StreakInv u) :
    (apply_checkins l u).longest_streak =
      max u.longest_streak (best_from u.current_streak l) := by
  obtain ⟨h0, h1⟩ := hu
  induction l generalizing u with
  | nil =>
      simp only [apply_checkins, best_from]
      omega
  | cons s rest ih =>
      cases s with
      | true =>
          rw [apply_checkins]
          have hstep : checkin_update_streak u true =
              { u with current_streak := u.current_streak + 1,
                       longest_streak :=
                         max u.longest_streak (u.current_streak + 1),
                       total_days := u.total_days + 1 } := by
            simp [checkin_update_streak]
          rw [hstep]
          rw [ih _ (by show (0 : Int) ≤ u.current_streak + 1; omega)
            (by show u.current_streak + 1 ≤
                  max u.longest_streak (u.current_streak + 1)
                omega)]
          simp only [best_from]
          have := le_best_from rest (u.current_streak + 1)
          omega
      | false =>
          rw [apply_checkins]
          have hstep : checkin_update_streak u false =
              { u with current_streak := 0,
                       total_days := u.total_days + 1,
                       total_slip_ups := u.total_slip_ups + 1 } := by
            simp [checkin_update_streak]
          rw [hstep]
          rw [ih _ (by show (0 : Int) ≤ (0 : Int); omega)
            (by show (0 : Int) ≤ u.longest_streak; omega)]
          simp only [best_from]
          omega

/-- C7: applying any sequence of daily outcomes to a fresh user through
`CheckInRepository.update_streak` leaves counters that agree with the
aggregates over the history: `total_days` is the history length,
`total_slip_ups` is the number of failures, and `longest_streak` is the
maximum run of consecutive successes anywhere in the history. -/
theorem C7_counters_refine_history (l : List Bool) (uid : Int) :
    (apply_checkins l (fresh_user uid)).total_days = (l.length : Int) ∧
    (apply_checkins l (fresh_user uid)).total_slip_ups =
      (spec_count_fails l : Int) ∧
    (apply_checkins l (fresh_user uid)).longest_streak =
      (spec_max_run l : Int) := by
  refine ⟨?_, ?_, ?_⟩
  · rw [apply_checkins_total_days]
    simp [fresh_user]
  · rw [apply_checkins_slip_ups]
    simp [fresh_user]
  · rw [apply_checkins_longest l (fresh_user uid) ⟨le_rfl, le_rfl⟩]
    show max (0 : Int) (best_from 0 l) = _
    rw [best_from_eq_max_run l 0 le_rfl]
    have hle := spec_run_len_le_max_run l
    omega

end NoSugar
